import Mathlib

/-!
Shallow embedding of the FlightSQL server core
(src/go/arrow/flight/flightsql/server.go): the capability registry
(RegisterSqlInfo, GetFlightInfoSqlInfo, DoGetSqlInfo of BaseServer),
the RPC verb routers (GetFlightInfo, DoGet, DoPut of flightSqlServer),
the DoGet streaming loop, and the default unimplemented handlers.
-/

namespace FlightSql

/-- gRPC status codes used by server.go (google.golang.org/grpc/codes). -/
inductive Code where
| ok
| invalidArgument
| notFound
| unimplemented
| internal
deriving DecidableEq, Repr

/-- A Go error produced via status.Error / status.Errorf: a status code
together with the formatted message. -/
structure GrpcError where
code : Code
msg : String
deriving DecidableEq, Repr

/-- The single-quote character, used by Go verb %q-style quoting in the
RegisterSqlInfo error message. -/
def sq : String := String.singleton (Char.ofNat 39)

/-- The six permitted dynamic shapes of a registered sql-info value
(string, bool, int64, int32, []string, map[int32][]int32), as stored in
SqlInfoResultMap. Machine integers are modelled as Int. -/
inductive SqlInfoValue where
| strVal (s : String)
| boolVal (b : Bool)
| int64Val (n : Int)
| int32Val (n : Int)
| strListVal (l : List String)
| int32MapVal (m : List (Int × List Int))
deriving DecidableEq, Repr

/-- Modelled from the spec: the dense-union type-code assignment used by
sqlInfoResultBuilder (sql_info.go, which is not under src/): string=0,
bool=1, int64=2, int32=3, [string]=4, map[int32→[int32]]=5. -/
def typeCode : SqlInfoValue → Nat
| .strVal _ => 0
| .boolVal _ => 1
| .int64Val _ => 2
| .int32Val _ => 3
| .strListVal _ => 4
| .int32MapVal _ => 5

/-- A Go interface{} value passed to RegisterSqlInfo: either one of the
six permitted shapes, or any other dynamic type, carrying the name that
Go's %T verb would print for it. -/
inductive GoValue where
| str (s : String)
| boolean (b : Bool)
| int64 (n : Int)
| int32 (n : Int)
| strList (l : List String)
| int32Map (m : List (Int × List Int))
| other (typeName : String)
deriving DecidableEq, Repr

/-- The name Go's %T verb prints for a GoValue's dynamic type. -/
def goTypeName : GoValue → String
| .str _ => "string"
| .boolean _ => "bool"
| .int64 _ => "int64"
| .int32 _ => "int32"
| .strList _ => "[]string"
| .int32Map _ => "map[int32][]int32"
| .other t => t

/-- The type-switch of RegisterSqlInfo: a GoValue matches one of the six
permitted cases exactly when this returns some. -/
def toSqlInfoValue : GoValue → Option SqlInfoValue
| .str s => some (.strVal s)
| .boolean b => some (.boolVal b)
| .int64 n => some (.int64Val n)
| .int32 n => some (.int32Val n)
| .strList l => some (.strListVal l)
| .int32Map m => some (.int32MapVal m)
| .other _ => none

/-- SqlInfoResultMap (map[uint32]interface{} restricted to the stored
shapes), modelled as an association list with unique keys maintained by
mapSet. Keys are the uint32 sql-info ids. -/
abbrev Registry := List (Nat × SqlInfoValue)

/-- Go map lookup m[k]: the value stored under k, if any. -/
def lookupInfo (reg : Registry) (k : Nat) : Option SqlInfoValue :=
match reg with
| [] => none
| (k2, v) :: rest => if k2 = k then some v else lookupInfo rest k

/-- Go map assignment m[k] = v: overwrites the entry for k if present,
otherwise adds it. -/
def mapSet (reg : Registry) (k : Nat) (v : SqlInfoValue) : Registry :=
match reg with
| [] => [(k, v)]
| (k2, v2) :: rest => if k2 = k then (k, v) :: rest else (k2, v2) :: mapSet rest k v

/-- Outcome of a call to BaseServer.RegisterSqlInfo on a server whose
sqlInfoToResult field is reg (none models Go's nil map, the zero value of
BaseServer, since nothing in server.go initializes the map): the registry
after the call, the returned error (none = nil), and whether the call
panicked (Go assignment to a nil map panics). -/
structure RegisterOutcome where
reg : Option Registry
ret : Option String
panicked : Bool
deriving DecidableEq, Repr

/-- BaseServer.RegisterSqlInfo (server.go lines 166-174): a type switch
over the six permitted shapes stores the value with an unguarded map
assignment; any other dynamic type returns a formatted error and leaves
the registry untouched. -/
def registerSqlInfo (reg : Option Registry) (id : Nat) (v : GoValue) : RegisterOutcome :=
match toSqlInfoValue v with
| some sv =>
  match reg with
  | none => ⟨none, none, true⟩
  | some r => ⟨some (mapSet r id sv), none, false⟩
| none =>
  ⟨reg, some ("invalid sql info type " ++ sq ++ goTypeName v ++ sq ++ " registered for id: " ++ toString id), false⟩

/-- flight.FlightDescriptor, restricted to the field the core reads:
the opaque command bytes. -/
structure FlightDescriptor where
cmd : List Nat
deriving DecidableEq, Repr

/-- flight.Ticket: opaque ticket bytes. -/
structure Ticket where
ticket : List Nat
deriving DecidableEq, Repr

/-- flight.FlightEndpoint, restricted to its ticket. -/
structure FlightEndpoint where
ticket : Ticket
deriving DecidableEq, Repr

/-- Identifies which Arrow schema a value of serialized-schema bytes came
from; schema_ref.SqlInfo is the only schema server.go serializes itself. -/
inductive SchemaRef where
| sqlInfo
deriving DecidableEq, Repr

/-- flight.FlightInfo, restricted to the fields server.go populates in
GetFlightInfoSqlInfo. -/
structure FlightInfo where
endpoint : List FlightEndpoint
flightDescriptor : FlightDescriptor
totalRecords : Int
totalBytes : Int
schema : List Nat
deriving DecidableEq, Repr

/-- BaseServer.GetFlightInfoSqlInfo (server.go lines 212-228), with the
external flight.SerializeSchema abstracted as the argument ser. Fails
with NotFound when the registry is empty; otherwise returns a FlightInfo
whose single endpoint's ticket is the descriptor's cmd bytes, with the
original descriptor, totals -1 and -1, and the serialized SqlInfo schema. -/
def getFlightInfoSqlInfo (ser : SchemaRef → List Nat) (reg : Registry)
    (desc : FlightDescriptor) : Except GrpcError FlightInfo :=
if reg.length = 0 then
  .error ⟨.notFound, "no sql information available"⟩
else
  .ok ⟨[⟨⟨desc.cmd⟩⟩], desc, -1, -1, ser .sqlInfo⟩

/-- The loop of BaseServer.DoGetSqlInfo (server.go lines 251-258): for
each requested id in order, look it up in the registry; on the first miss
fail with NotFound naming the id, otherwise append a row (the id in
column 0, the value on the dense union column). -/
def doGetSqlInfoRows (reg : Registry) : List Nat → Except GrpcError (List (Nat × SqlInfoValue))
| [] => .ok []
| i :: rest =>
  match lookupInfo reg i with
  | none => .error ⟨.notFound, "no information for sql info number " ++ toString i⟩
  | some v =>
    match doGetSqlInfoRows reg rest with
    | .error e => .error e
    | .ok rows => .ok ((i, v) :: rows)

/-- BaseServer.DoGetSqlInfo (server.go lines 231-273): builds one record
from the requested ids and streams exactly that record (the external
flight.StreamChunksFromReader streams the single batch handed to the
record reader); returns the SqlInfo schema and the streamed records, or
an error and no stream. Rows are (id, value) pairs; column 0 is the ids,
the dense-union type code of each row is typeCode of its value. -/
def doGetSqlInfo (reg : Registry) (ids : List Nat) :
    Except GrpcError (SchemaRef × List (List (Nat × SqlInfoValue))) :=
match doGetSqlInfoRows reg ids with
| .error e => .error e
| .ok rows => .ok (.sqlInfo, [rows])

/-- The closed set of decoded protobuf command types the routers switch
on (pb.CommandStatementQuery, pb.TicketStatementQuery, etc.). -/
inductive Command where
| statementQuery
| preparedStatementQuery
| getCatalogs
| getDbSchemas
| getTables
| getTableTypes
| getXdbcTypeInfo
| getSqlInfo
| getPrimaryKeys
| getExportedKeys
| getImportedKeys
| getCrossReference
| ticketStatementQuery
| statementUpdate
| preparedStatementUpdate
deriving DecidableEq, Repr, Fintype

/-- The handler methods of the Server interface (server.go lines
363-445). -/
inductive Method where
| getFlightInfoStatement
| doGetStatement
| getFlightInfoPreparedStatement
| doGetPreparedStatement
| getFlightInfoCatalogs
| doGetCatalogs
| getFlightInfoXdbcTypeInfo
| doGetXdbcTypeInfo
| getFlightInfoSqlInfo
| doGetSqlInfoMethod
| getFlightInfoSchemas
| doGetDBSchemas
| getFlightInfoTables
| doGetTables
| getFlightInfoTableTypes
| doGetTableTypes
| getFlightInfoPrimaryKeys
| doGetPrimaryKeys
| getFlightInfoExportedKeys
| doGetExportedKeys
| getFlightInfoImportedKeys
| doGetImportedKeys
| getFlightInfoCrossReference
| doGetCrossReference
| createPreparedStatement
| closePreparedStatement
| doPutCommandStatementUpdate
| doPutPreparedStatementQuery
| doPutPreparedStatementUpdate
deriving DecidableEq, Repr, Fintype

/-- The Go name of each Server method. -/
def methodName : Method → String
| .getFlightInfoStatement => "GetFlightInfoStatement"
| .doGetStatement => "DoGetStatement"
| .getFlightInfoPreparedStatement => "GetFlightInfoPreparedStatement"
| .doGetPreparedStatement => "DoGetPreparedStatement"
| .getFlightInfoCatalogs => "GetFlightInfoCatalogs"
| .doGetCatalogs => "DoGetCatalogs"
| .getFlightInfoXdbcTypeInfo => "GetFlightInfoXdbcTypeInfo"
| .doGetXdbcTypeInfo => "DoGetXdbcTypeInfo"
| .getFlightInfoSqlInfo => "GetFlightInfoSqlInfo"
| .doGetSqlInfoMethod => "DoGetSqlInfo"
| .getFlightInfoSchemas => "GetFlightInfoSchemas"
| .doGetDBSchemas => "DoGetDBSchemas"
| .getFlightInfoTables => "GetFlightInfoTables"
| .doGetTables => "DoGetTables"
| .getFlightInfoTableTypes => "GetFlightInfoTableTypes"
| .doGetTableTypes => "DoGetTableTypes"
| .getFlightInfoPrimaryKeys => "GetFlightInfoPrimaryKeys"
| .doGetPrimaryKeys => "DoGetPrimaryKeys"
| .getFlightInfoExportedKeys => "GetFlightInfoExportedKeys"
| .doGetExportedKeys => "DoGetExportedKeys"
| .getFlightInfoImportedKeys => "GetFlightInfoImportedKeys"
| .doGetImportedKeys => "DoGetImportedKeys"
| .getFlightInfoCrossReference => "GetFlightInfoCrossReference"
| .doGetCrossReference => "DoGetCrossReference"
| .createPreparedStatement => "CreatePreparedStatement"
| .closePreparedStatement => "ClosePreparedStatement"
| .doPutCommandStatementUpdate => "DoPutCommandStatementUpdate"
| .doPutPreparedStatementQuery => "DoPutPreparedStatementQuery"
| .doPutPreparedStatementUpdate => "DoPutPreparedStatementUpdate"

/-- The default implementations provided by BaseServer (server.go lines
176-348): every method returns a fixed Unimplemented error except
GetFlightInfoSqlInfo and DoGetSqlInfo, which are backed by the registry
(modelled here as none, i.e. not an unconditional error). Each message
string is the literal from the source. -/
def baseServerDefault : Method → Option GrpcError
| .getFlightInfoStatement => some ⟨.unimplemented, "GetFlightInfoStatement not implemented"⟩
| .doGetStatement => some ⟨.unimplemented, "DoGetStatement not implemented"⟩
| .getFlightInfoPreparedStatement => some ⟨.unimplemented, "GetFlightInfoPreparedStatement not implemented"⟩
| .doGetPreparedStatement => some ⟨.unimplemented, "DoGetPreparedStatement not implemented"⟩
| .getFlightInfoCatalogs => some ⟨.unimplemented, "GetFlightInfoCatalogs not implemented"⟩
| .doGetCatalogs => some ⟨.unimplemented, "DoGetCatalogs not implemented"⟩
| .getFlightInfoXdbcTypeInfo => some ⟨.unimplemented, "GetFlightInfoXdbcTypeInfo not implemented"⟩
| .doGetXdbcTypeInfo => some ⟨.unimplemented, "DoGetXdbcTypeInfo not implemented"⟩
| .getFlightInfoSqlInfo => none
| .doGetSqlInfoMethod => none
| .getFlightInfoSchemas => some ⟨.unimplemented, "GetFlightInfoSchemas not implemented"⟩
| .doGetDBSchemas => some ⟨.unimplemented, "DoGetDBSchemas not implemented"⟩
| .getFlightInfoTables => some ⟨.unimplemented, "GetFlightInfoTables not implemented"⟩
| .doGetTables => some ⟨.unimplemented, "DoGetTables not implemented"⟩
| .getFlightInfoTableTypes => some ⟨.unimplemented, "GetFlightInfoTableTypes not implemented"⟩
| .doGetTableTypes => some ⟨.unimplemented, "DoGetTableTypes not implemented"⟩
| .getFlightInfoPrimaryKeys => some ⟨.unimplemented, "GetFlightInfoPrimaryKeys not implemented"⟩
| .doGetPrimaryKeys => some ⟨.unimplemented, "DoGetPrimaryKeys not implemented"⟩
| .getFlightInfoExportedKeys => some ⟨.unimplemented, "GetFlightInfoExportedKeys not implemented"⟩
| .doGetExportedKeys => some ⟨.unimplemented, "DoGetExportedKeys not implemented"⟩
| .getFlightInfoImportedKeys => some ⟨.unimplemented, "GetFlightInfoImportedKeys not implemented"⟩
| .doGetImportedKeys => some ⟨.unimplemented, "DoGetImportedKeys not implemented"⟩
| .getFlightInfoCrossReference => some ⟨.unimplemented, "GetFlightInfoCrossReference not implemented"⟩
| .doGetCrossReference => some ⟨.unimplemented, "DoGetCrossReference not implemented"⟩
| .createPreparedStatement => some ⟨.unimplemented, "CreatePreparedStatement not implemented"⟩
| .closePreparedStatement => some ⟨.unimplemented, "ClosePreparedStatement not implemented"⟩
| .doPutCommandStatementUpdate => some ⟨.unimplemented, "DoPutCommandStatementUpdate not implemented"⟩
| .doPutPreparedStatementQuery => some ⟨.unimplemented, "DoPutPreparedStatementQuery not implemented"⟩
| .doPutPreparedStatementUpdate => some ⟨.unimplemented, "DoPutPreparedStatementUpdate not implemented"⟩

/-- The type switch of flightSqlServer.GetFlightInfo (server.go lines
488-516): the handler method dispatched to for each decoded command;
none models falling through to the InvalidArgument return. -/
def getFlightInfoDispatch : Command → Option Method
| .statementQuery => some .getFlightInfoStatement
| .preparedStatementQuery => some .getFlightInfoPreparedStatement
| .getCatalogs => some .getFlightInfoCatalogs
| .getDbSchemas => some .getFlightInfoSchemas
| .getTables => some .getFlightInfoTables
| .getTableTypes => some .getFlightInfoTableTypes
| .getXdbcTypeInfo => some .getFlightInfoXdbcTypeInfo
| .getSqlInfo => some .getFlightInfoSqlInfo
| .getPrimaryKeys => some .getFlightInfoPrimaryKeys
| .getExportedKeys => some .getFlightInfoExportedKeys
| .getImportedKeys => some .getFlightInfoImportedKeys
| .getCrossReference => some .getFlightInfoCrossReference
| _ => none

/-- The type switch of flightSqlServer.DoGet (server.go lines 533-560):
the handler method dispatched to for each decoded command; none models
the default InvalidArgument branch. -/
def doGetDispatch : Command → Option Method
| .ticketStatementQuery => some .doGetStatement
| .preparedStatementQuery => some .doGetPreparedStatement
| .getCatalogs => some .doGetCatalogs
| .getDbSchemas => some .doGetDBSchemas
| .getTables => some .doGetTables
| .getTableTypes => some .doGetTableTypes
| .getXdbcTypeInfo => some .doGetXdbcTypeInfo
| .getSqlInfo => some .doGetSqlInfoMethod
| .getPrimaryKeys => some .doGetPrimaryKeys
| .getExportedKeys => some .doGetExportedKeys
| .getImportedKeys => some .doGetImportedKeys
| .getCrossReference => some .doGetCrossReference
| _ => none

/-- flight.StreamChunk as consumed by the DoGet loop: the record batch
(identified by a numeric id for tracking references), the optional
per-chunk descriptor, app metadata bytes, and the optional error. -/
structure StreamChunk where
dataId : Nat
desc : Option FlightDescriptor
appMetadata : List Nat
err : Option GrpcError
deriving DecidableEq, Repr

/-- Observable outcome of the DoGet streaming loop: the ids of batches
written to the RPC stream in order, the ids of batches released in
order, and the error value the function returns (none = nil). -/
structure DoGetLoopResult where
written : List Nat
released : List Nat
ret : Option GrpcError
deriving DecidableEq, Repr

/-- The streaming loop of flightSqlServer.DoGet (server.go lines
569-581), transliterated: writeRes gives the result of
wr.WriteWithAppMetadata for a chunk (none = nil error) and err is the
err variable in scope when the loop is entered (nil after a successful
dispatch). A chunk with non-nil Err returns the current err variable —
not chunk.Err. A failed write returns the write error without releasing
the chunk's data; a successful write releases the data and continues,
leaving err nil. -/
def doGetLoop (writeRes : StreamChunk → Option GrpcError) :
    List StreamChunk → Option GrpcError → DoGetLoopResult
| [], err => ⟨[], [], err⟩
| c :: rest, err =>
  match c.err with
  | some _ => ⟨[], [], err⟩
  | none =>
    match writeRes c with
    | some e => ⟨[], [], some e⟩
    | none =>
      let r := doGetLoop writeRes rest none
      ⟨c.dataId :: r.written, c.dataId :: r.released, r.ret⟩

/-- pb.DoPutUpdateResult: the protobuf reply message carrying the number
of records affected by an update. -/
structure DoPutUpdateResult where
recordCount : Int
deriving DecidableEq, Repr

/-- Modelled from the spec: proto.Marshal of a DoPutUpdateResult (the
external google.golang.org/protobuf serializer), abstracted as an
injective byte encoding of the record count. -/
def marshalDoPutUpdateResult (r : DoPutUpdateResult) : List Nat :=
[if r.recordCount < 0 then 1 else 0, r.recordCount.natAbs]

/-- Modelled from the spec: the decoder inverse to
marshalDoPutUpdateResult. -/
def unmarshalDoPutUpdateResult : List Nat → Option DoPutUpdateResult
| [s, m] =>
  if s = 1 then some ⟨-(m : Int)⟩
  else if s = 0 then some ⟨(m : Int)⟩
  else none
| _ => none

/-- Observable outcome of flightSqlServer.DoPut: the appMetadata bytes of
each PutResult sent on the stream, in order, and the returned error. -/
structure DoPutOutcome where
sent : List (List Nat)
ret : Option GrpcError
deriving DecidableEq, Repr

/-- The type switch of flightSqlServer.DoPut (server.go lines 614-643):
the handler method dispatched to for each decoded command; none models
the default InvalidArgument branch. -/
def doPutDispatch : Command → Option Method
| .statementUpdate => some .doPutCommandStatementUpdate
| .preparedStatementQuery => some .doPutPreparedStatementQuery
| .preparedStatementUpdate => some .doPutPreparedStatementUpdate
| _ => none

/-- The CommandStatementUpdate branch of flightSqlServer.DoPut
(server.go lines 614-626): call DoPutCommandStatementUpdate; on handler
error return it with no reply sent; on success send exactly one
PutResult whose appMetadata is the marshalled DoPutUpdateResult with the
returned record count. The handler outcome is passed as an argument. -/
def doPutStatementUpdate (handler : Except GrpcError Int) : DoPutOutcome :=
match handler with
| .error e => ⟨[], some e⟩
| .ok c => ⟨[marshalDoPutUpdateResult ⟨c⟩], none⟩

/-! Helper lemmas. -/

/-- Assigning under a key and then looking that key up yields the
assigned value (Go map overwrite semantics of mapSet). -/
theorem lookupInfo_mapSet (r : Registry) (k : Nat) (v : SqlInfoValue) :
    lookupInfo (mapSet r k v) k = some v := by
induction r with
| nil => simp [mapSet, lookupInfo]
| cons hd tl ih =>
  obtain ⟨k2, v2⟩ := hd
  by_cases h : k2 = k
  · simp [mapSet, h, lookupInfo]
  · simp [mapSet, h, lookupInfo, ih]

/-- When every requested id is registered, the DoGetSqlInfo loop
produces one row per id, pairing the id with its registered value. -/
theorem doGetSqlInfoRows_all_registered (reg : Registry) (ids : List Nat)
    (h : ∀ i ∈ ids, (lookupInfo reg i).isSome) :
    doGetSqlInfoRows reg ids =
      .ok (ids.map (fun i => (i, (lookupInfo reg i).getD (.boolVal false)))) := by
induction ids with
| nil => rfl
| cons i rest ih =>
  have hi := h i (by simp)
  obtain ⟨v, hv⟩ := Option.isSome_iff_exists.mp hi
  have hrest := ih (fun j hj => h j (by simp [hj]))
  simp [doGetSqlInfoRows, hv, hrest]

/-! Theorems for the claims. -/

/-- C3: for a GetSqlInfo request whose ids are all registered,
DoGetSqlInfo succeeds and streams a single record with one row per id,
whose uint32 column 0 equals the requested ids in order, whose rows hold
the registered values, and whose per-row dense-union type code is the
code of the registered value's shape. -/
theorem doGetSqlInfo_all_registered (reg : Registry) (ids : List Nat)
    (h : ∀ i ∈ ids, (lookupInfo reg i).isSome) :
    ∃ rows, doGetSqlInfo reg ids = .ok (.sqlInfo, [rows]) ∧
      rows.length = ids.length ∧
      rows.map Prod.fst = ids ∧
      (∀ p ∈ rows, lookupInfo reg p.1 = some p.2) ∧
      rows.map (fun p => typeCode p.2) =
        ids.map (fun i => typeCode ((lookupInfo reg i).getD (.boolVal false))) := by
refine ⟨ids.map (fun i => (i, (lookupInfo reg i).getD (.boolVal false))), ?_, ?_, ?_, ?_, ?_⟩
· simp [doGetSqlInfo, doGetSqlInfoRows_all_registered reg ids h]
· simp
· simp [List.map_map]
  exact List.map_id ids
· intro p hp
  simp only [List.mem_map] at hp
  obtain ⟨i, hi, rfl⟩ := hp
  obtain ⟨v, hv⟩ := Option.isSome_iff_exists.mp (h i hi)
  simp [hv]
· simp

/-- Witness for C3: the spec's capability-query scenario, with
capability 1 registered to the string "v1.0" (union code 0) and
capability 2 to the bool true (union code 1), requested as [1, 2]. -/
theorem doGetSqlInfo_all_registered_witness :
    ∃ rows,
      doGetSqlInfo [(1, .strVal "v1.0"), (2, .boolVal true)] [1, 2] = .ok (.sqlInfo, [rows]) ∧
      rows.length = ([1, 2] : List Nat).length ∧
      rows.map Prod.fst = [1, 2] ∧
      (∀ p ∈ rows, lookupInfo [(1, .strVal "v1.0"), (2, .boolVal true)] p.1 = some p.2) ∧
      rows.map (fun p => typeCode p.2) =
        ([1, 2] : List Nat).map
          (fun i => typeCode ((lookupInfo [(1, .strVal "v1.0"), (2, .boolVal true)] i).getD (.boolVal false))) :=
doGetSqlInfo_all_registered [(1, .strVal "v1.0"), (2, .boolVal true)] [1, 2] (by decide)

/-- C4: with at least one registered capability, GetFlightInfoSqlInfo
succeeds with a FlightInfo whose single endpoint's ticket is the request
descriptor's cmd bytes, whose descriptor is the original descriptor,
whose TotalRecords and TotalBytes are -1, and whose schema is the
serialized SqlInfo schema. -/
theorem getFlightInfoSqlInfo_ok (ser : SchemaRef → List Nat) (reg : Registry)
    (desc : FlightDescriptor) (h : reg ≠ []) :
    getFlightInfoSqlInfo ser reg desc =
      .ok ⟨[⟨⟨desc.cmd⟩⟩], desc, -1, -1, ser .sqlInfo⟩ := by
simp [getFlightInfoSqlInfo, List.length_eq_zero, h]

/-- Witness for C4: one registered capability, a concrete descriptor. -/
theorem getFlightInfoSqlInfo_ok_witness :
    getFlightInfoSqlInfo (fun _ => [3]) [(1, .strVal "x")] ⟨[7, 8]⟩ =
      .ok ⟨[⟨⟨[7, 8]⟩⟩], ⟨[7, 8]⟩, -1, -1, [3]⟩ :=
getFlightInfoSqlInfo_ok (fun _ => [3]) [(1, .strVal "x")] ⟨[7, 8]⟩ (by decide)

/-- C5: a GetSqlInfo request whose ids contain an unregistered id (all
earlier ids being registered) makes DoGetSqlInfo fail with a NotFound
error whose message names that id, and no stream of records is
produced. -/
theorem doGetSqlInfo_unregistered (reg : Registry) (pre post : List Nat) (i : Nat)
    (hpre : ∀ j ∈ pre, (lookupInfo reg j).isSome)
    (hi : lookupInfo reg i = none) :
    doGetSqlInfo reg (pre ++ i :: post) =
      .error ⟨.notFound, "no information for sql info number " ++ toString i⟩ := by
induction pre with
| nil => simp [doGetSqlInfo, doGetSqlInfoRows, hi]
| cons j pre ih =>
  have hj := hpre j (by simp)
  obtain ⟨v, hv⟩ := Option.isSome_iff_exists.mp hj
  have hrest := ih (fun k hk => hpre k (by simp [hk]))
  simp only [doGetSqlInfo] at hrest ⊢
  cases hrows : doGetSqlInfoRows reg (pre ++ i :: post) with
  | error e =>
    simp only [hrows] at hrest
    simp [List.cons_append, doGetSqlInfoRows, hv, hrows, hrest]
  | ok rows => simp [hrows] at hrest

/-- Witness for C5: the spec's unknown-capability scenario, ids [1, 99]
with only id 1 registered. -/
theorem doGetSqlInfo_unregistered_witness :
    doGetSqlInfo [(1, .strVal "x")] ([1] ++ 99 :: []) =
      .error ⟨.notFound, "no information for sql info number " ++ toString 99⟩ :=
doGetSqlInfo_unregistered [(1, .strVal "x")] [1] [] 99 (by decide) (by decide)

/-- C6: registering a value whose dynamic type is outside the six
permitted shapes returns a descriptive error naming the offending type
(via %T) and the id, leaves the registry exactly as it was, and does
not panic. -/
theorem registerSqlInfo_invalid_shape (reg : Option Registry) (id : Nat) (v : GoValue)
    (h : toSqlInfoValue v = none) :
    registerSqlInfo reg id v =
      ⟨reg,
       some ("invalid sql info type " ++ sq ++ goTypeName v ++ sq ++ " registered for id: " ++ toString id),
       false⟩ := by
simp [registerSqlInfo, h]

/-- Witness for C6: registering a value of dynamic type float64 under
id 42 fails with the formatted message and leaves the registry (here
holding one prior entry) unchanged. -/
theorem registerSqlInfo_invalid_shape_witness :
    registerSqlInfo (some [(1, .strVal "x")]) 42 (.other "float64") =
      ⟨some [(1, .strVal "x")],
       some ("invalid sql info type " ++ sq ++ goTypeName (.other "float64") ++ sq ++ " registered for id: " ++ toString 42),
       false⟩ :=
registerSqlInfo_invalid_shape (some [(1, .strVal "x")]) 42 (.other "float64") (by decide)

/-- C10: registering a permitted-shape value stores it under the id
(overwriting any prior value, as lookupInfo after mapSet shows) and
returns nil, provided the sqlInfoToResult map is initialized; on the
zero-value BaseServer the map is nil (none) and the unguarded map
assignment panics. -/
theorem registerSqlInfo_requires_initialized_map (r : Registry) (id : Nat)
    (v : GoValue) (sv : SqlInfoValue) (h : toSqlInfoValue v = some sv) :
    registerSqlInfo (some r) id v = ⟨some (mapSet r id sv), none, false⟩ ∧
    lookupInfo (mapSet r id sv) id = some sv ∧
    (registerSqlInfo none id v).panicked = true := by
refine ⟨by simp [registerSqlInfo, h], lookupInfo_mapSet r id sv, by simp [registerSqlInfo, h]⟩

/-- Witness for C10: overwriting the registered value for id 1 on an
initialized registry succeeds and returns nil, while the same call on
the zero-value (nil-map) server panics. -/
theorem registerSqlInfo_requires_initialized_map_witness :
    registerSqlInfo (some [(1, .strVal "old")]) 1 (.boolean true) =
      ⟨some (mapSet [(1, .strVal "old")] 1 (.boolVal true)), none, false⟩ ∧
    lookupInfo (mapSet [(1, .strVal "old")] 1 (.boolVal true)) 1 = some (.boolVal true) ∧
    (registerSqlInfo none 1 (.boolean true)).panicked = true :=
registerSqlInfo_requires_initialized_map [(1, .strVal "old")] 1 (.boolean true) (.boolVal true) (by decide)

/-- C7: DoGet dispatches TicketStatementQuery to DoGetStatement and
GetFlightInfo dispatches CommandStatementQuery to GetFlightInfoStatement;
each verb rejects the other's statement command with InvalidArgument
(dispatch none), and in general each verb yields InvalidArgument exactly
for the decoded commands outside its dispatch set. -/
theorem statement_dispatch_not_confused :
    doGetDispatch .ticketStatementQuery = some .doGetStatement ∧
    getFlightInfoDispatch .statementQuery = some .getFlightInfoStatement ∧
    doGetDispatch .statementQuery = none ∧
    getFlightInfoDispatch .ticketStatementQuery = none ∧
    (∀ c : Command, getFlightInfoDispatch c = none ↔
      c ∈ ([.ticketStatementQuery, .statementUpdate, .preparedStatementUpdate] : List Command)) ∧
    (∀ c : Command, doGetDispatch c = none ↔
      c ∈ ([.statementQuery, .statementUpdate, .preparedStatementUpdate] : List Command)) := by
refine ⟨rfl, rfl, rfl, rfl, ?_, ?_⟩ <;> intro c <;> cases c <;> simp [getFlightInfoDispatch, doGetDispatch]

/-- Witness for C7: DoGet rejects the GetFlightInfo statement command. -/
theorem statement_dispatch_not_confused_witness :
    doGetDispatch .statementQuery = none :=
statement_dispatch_not_confused.2.2.1

/-- C8: every BaseServer handler method except GetFlightInfoSqlInfo and
DoGetSqlInfo returns an Unimplemented error whose message is the
method's name followed by " not implemented" (so the message contains
the name); in particular the router sends a GetCatalogs command to
GetFlightInfoCatalogs, whose default yields "GetFlightInfoCatalogs not
implemented". -/
theorem baseServer_unimplemented_defaults :
    (∀ m : Method, m ≠ .getFlightInfoSqlInfo → m ≠ .doGetSqlInfoMethod →
      baseServerDefault m = some ⟨.unimplemented, methodName m ++ " not implemented"⟩) ∧
    getFlightInfoDispatch .getCatalogs = some .getFlightInfoCatalogs ∧
    baseServerDefault .getFlightInfoCatalogs =
      some ⟨.unimplemented, "GetFlightInfoCatalogs not implemented"⟩ := by
refine ⟨?_, rfl, rfl⟩
intro m h1 h2
cases m <;> first
| rfl
| exact absurd rfl h1
| exact absurd rfl h2

/-- Witness for C8: the GetFlightInfoCatalogs default. -/
theorem baseServer_unimplemented_defaults_witness :
    baseServerDefault .getFlightInfoCatalogs =
      some ⟨.unimplemented, methodName .getFlightInfoCatalogs ++ " not implemented"⟩ :=
baseServer_unimplemented_defaults.1 .getFlightInfoCatalogs (by decide) (by decide)

/-- C9: the DoPut router sends a StatementUpdate command to the
statement-update handler; on handler success with count c it sends
exactly one PutResult whose appMetadata is the serialized
DoPutUpdateResult carrying recordCount c (decoding it recovers c); on
handler failure it returns the handler's error and sends no reply. -/
theorem doPut_statement_update (c : Int) (e : GrpcError) :
    doPutDispatch .statementUpdate = some .doPutCommandStatementUpdate ∧
    doPutStatementUpdate (.ok c) = ⟨[marshalDoPutUpdateResult ⟨c⟩], none⟩ ∧
    unmarshalDoPutUpdateResult (marshalDoPutUpdateResult ⟨c⟩) = some ⟨c⟩ ∧
    doPutStatementUpdate (.error e) = ⟨[], some e⟩ := by
refine ⟨rfl, rfl, ?_, rfl⟩
by_cases h : c < 0
· have habs : ((c.natAbs : Int)) = -c := Int.ofNat_natAbs_of_nonpos (le_of_lt h)
  simp [marshalDoPutUpdateResult, unmarshalDoPutUpdateResult, h, habs]
· have habs : ((c.natAbs : Int)) = c := Int.natAbs_of_nonneg (le_of_not_lt h)
  simp [marshalDoPutUpdateResult, unmarshalDoPutUpdateResult, h, habs]

/-- Witness for C9: the spec's update scenario with recordCount 7, and
a failing handler. -/
theorem doPut_statement_update_witness :
    doPutDispatch .statementUpdate = some .doPutCommandStatementUpdate ∧
    doPutStatementUpdate (.ok 7) = ⟨[marshalDoPutUpdateResult ⟨7⟩], none⟩ ∧
    unmarshalDoPutUpdateResult (marshalDoPutUpdateResult ⟨7⟩) = some ⟨7⟩ ∧
    doPutStatementUpdate (.error ⟨.internal, "x"⟩) = ⟨[], some ⟨.internal, "x"⟩⟩ :=
doPut_statement_update 7 ⟨.internal, "x"⟩

/-- C1: evaluation of the DoGet streaming loop at the failing input:
after a successful dispatch (err = none) the channel yields one chunk
whose Err is a non-nil Internal error; the loop stops (nothing written,
so no further chunks are sent) but returns the stale err variable, i.e.
nil — not the chunk's error as the spec requires. -/
theorem doGetLoop_error_chunk_returns_stale_err :
    doGetLoop (fun _ => none) [⟨0, none, [], some ⟨.internal, "boom"⟩⟩] none =
      ⟨[], [], none⟩ := rfl

/-- C2 counterexample: the adapter takes one chunk (err nil, data id 5)
whose write fails; the claim demands exactly one release of its data on
the write-error exit path, but the loop releases nothing. -/
theorem doGetLoop_write_error_releases_nothing :
    ¬ ((doGetLoop (fun _ => some ⟨.internal, "write failed"⟩)
        [⟨5, none, [], none⟩] none).released.count 5 = 1) := by
decide

/-- C2 (amended): the DoGet loop releases a chunk's data exactly when
that chunk was successfully written: the sequence of released batch ids
equals the sequence of successfully written batch ids, so each
successful write is followed by exactly one release, while the
write-error and error-chunk exit paths release nothing. -/
theorem doGetLoop_release_matches_writes (w : StreamChunk → Option GrpcError)
    (cs : List StreamChunk) (err : Option GrpcError) :
    (doGetLoop w cs err).released = (doGetLoop w cs err).written := by
induction cs generalizing err with
| nil => rfl
| cons c rest ih =>
  cases hc : c.err with
  | some e => simp [doGetLoop, hc]
  | none =>
    cases hw : w c with
    | some e => simp [doGetLoop, hc, hw]
    | none => simp [doGetLoop, hc, hw, ih none]

end FlightSql
